import Mathlib

/-!
Verification of the diffusion engine of `train_generation.py` (DDPM over point
clouds).  Tensors of shape [B, D, N] are embedded as functions
`ℕ → ℕ → ℕ → ℝ` (batch index, feature index, point index); per-batch timestep
tensors as `ℕ → ℕ`.  The beta schedule is a list of rationals (the source
validates it with exact comparisons); all derived coefficient tables live in ℝ.
Fallible operations (Python code that raises `NotImplementedError`) return
`Option`.
-/

noncomputable section

namespace PVD

/-- A [B, D, N] tensor: batch index, feature index, point index. -/
abbrev Tensor := ℕ → ℕ → ℕ → ℝ

/-- Embeds `normal_kl(mean1, logvar1, mean2, logvar2)`:
`0.5 * (-1.0 + logvar2 - logvar1 + torch.exp(logvar1 - logvar2)
      + (mean1 - mean2)**2 * torch.exp(-logvar2))`, elementwise. -/
def normal_kl (mean1 logvar1 mean2 logvar2 : ℝ) : ℝ :=
  0.5 * (-1 + logvar2 - logvar1 + Real.exp (logvar1 - logvar2)
    + (mean1 - mean2) ^ 2 * Real.exp (-logvar2))

/-- The diffusion engine configuration, as passed to
`GaussianDiffusion.__init__(betas, loss_type, model_mean_type, model_var_type)`.
The constructor validates `(betas > 0).all() and (betas <= 1).all()`; claims
carry that as a hypothesis. -/
structure GaussianDiffusion where
  betas : List ℚ
  loss_type : String
  model_mean_type : String
  model_var_type : String

namespace GaussianDiffusion

/-- `timesteps, = betas.shape; self.num_timesteps = int(timesteps)`.
The line extending the schedule to twice its length
(`betas = np.concatenate([betas, ...])`) is commented out in the source, so no
extension happens and `len(self.betas) == self.num_timesteps` always. -/
def num_timesteps (gd : GaussianDiffusion) : ℕ := gd.betas.length

/-- The beta table, indexed per timestep (out-of-range reads are irrelevant to
every claim and default to 0). -/
def beta (gd : GaussianDiffusion) (t : ℕ) : ℝ := ((gd.betas.getD t 0 : ℚ) : ℝ)

/-- `alphas_cumprod = np.cumprod(1. - betas)`:
`alphas_cumprod[t] = ∏_{i ≤ t} (1 - beta[i])`. -/
def alphas_cumprod (gd : GaussianDiffusion) (t : ℕ) : ℝ :=
  ∏ i in Finset.range (t + 1), (1 - gd.beta i)

/-- `alphas_cumprod_prev = np.append(1., alphas_cumprod[:-1])`. -/
def alphas_cumprod_prev (gd : GaussianDiffusion) (t : ℕ) : ℝ :=
  if t = 0 then 1 else gd.alphas_cumprod (t - 1)

/-- `sqrt_alphas_cumprod = torch.sqrt(alphas_cumprod)`. -/
def sqrt_alphas_cumprod (gd : GaussianDiffusion) (t : ℕ) : ℝ :=
  Real.sqrt (gd.alphas_cumprod t)

/-- `sqrt_one_minus_alphas_cumprod = torch.sqrt(1. - alphas_cumprod)`. -/
def sqrt_one_minus_alphas_cumprod (gd : GaussianDiffusion) (t : ℕ) : ℝ :=
  Real.sqrt (1 - gd.alphas_cumprod t)

/-- `log_one_minus_alphas_cumprod = torch.log(1. - alphas_cumprod)`. -/
def log_one_minus_alphas_cumprod (gd : GaussianDiffusion) (t : ℕ) : ℝ :=
  Real.log (1 - gd.alphas_cumprod t)

/-- `sqrt_recip_alphas_cumprod = torch.sqrt(1. / alphas_cumprod)`. -/
def sqrt_recip_alphas_cumprod (gd : GaussianDiffusion) (t : ℕ) : ℝ :=
  Real.sqrt (1 / gd.alphas_cumprod t)

/-- `sqrt_recipm1_alphas_cumprod = torch.sqrt(1. / alphas_cumprod - 1)`. -/
def sqrt_recipm1_alphas_cumprod (gd : GaussianDiffusion) (t : ℕ) : ℝ :=
  Real.sqrt (1 / gd.alphas_cumprod t - 1)

/-- `posterior_variance = betas * (1. - alphas_cumprod_prev) / (1. - alphas_cumprod)`. -/
def posterior_variance (gd : GaussianDiffusion) (t : ℕ) : ℝ :=
  gd.beta t * (1 - gd.alphas_cumprod_prev t) / (1 - gd.alphas_cumprod t)

/-- `posterior_log_variance_clipped = torch.log(torch.max(posterior_variance, 1e-20 * ones))`. -/
def posterior_log_variance_clipped (gd : GaussianDiffusion) (t : ℕ) : ℝ :=
  Real.log (max (gd.posterior_variance t) (1 / 10 ^ 20))

/-- `posterior_mean_coef1 = betas * torch.sqrt(alphas_cumprod_prev) / (1. - alphas_cumprod)`. -/
def posterior_mean_coef1 (gd : GaussianDiffusion) (t : ℕ) : ℝ :=
  gd.beta t * Real.sqrt (gd.alphas_cumprod_prev t) / (1 - gd.alphas_cumprod t)

/-- `posterior_mean_coef2 = (1. - alphas_cumprod_prev) * torch.sqrt(alphas) / (1. - alphas_cumprod)`
where `alphas = 1. - betas`. -/
def posterior_mean_coef2 (gd : GaussianDiffusion) (t : ℕ) : ℝ :=
  (1 - gd.alphas_cumprod_prev t) * Real.sqrt (1 - gd.beta t) / (1 - gd.alphas_cumprod t)

/-- `q_mean_variance(x_start, t)`: `_extract` gathers a per-timestep scalar at
`t[b]` and broadcasts it over the non-batch dimensions. -/
def q_mean_variance (gd : GaussianDiffusion) (x_start : Tensor) (t : ℕ → ℕ) :
    Tensor × Tensor × Tensor :=
  (fun b d n => gd.sqrt_alphas_cumprod (t b) * x_start b d n,
   fun b _ _ => 1 - gd.alphas_cumprod (t b),
   fun b _ _ => gd.log_one_minus_alphas_cumprod (t b))

/-- `q_sample(x_start, t, noise=None)`: `noise` defaults to a fresh
standard-normal draw, which we pass explicitly as `randn`; the result is
`_extract(sqrt_alphas_cumprod, t) * x_start
 + _extract(sqrt_one_minus_alphas_cumprod, t) * noise`. -/
def q_sample (gd : GaussianDiffusion) (x_start : Tensor) (t : ℕ → ℕ)
    (noise : Option Tensor) (randn : Tensor) : Tensor :=
  let nz := noise.getD randn
  fun b d n =>
    gd.sqrt_alphas_cumprod (t b) * x_start b d n
      + gd.sqrt_one_minus_alphas_cumprod (t b) * nz b d n

/-- `q_posterior_mean_variance(x_start, x_t, t)`: returns
`(posterior_mean, posterior_variance, posterior_log_variance_clipped)`. -/
def q_posterior_mean_variance (gd : GaussianDiffusion) (x_start x_t : Tensor)
    (t : ℕ → ℕ) : Tensor × Tensor × Tensor :=
  (fun b d n => gd.posterior_mean_coef1 (t b) * x_start b d n
      + gd.posterior_mean_coef2 (t b) * x_t b d n,
   fun b _ _ => gd.posterior_variance (t b),
   fun b _ _ => gd.posterior_log_variance_clipped (t b))

/-- `_predict_xstart_from_eps(x_t, t, eps)`. -/
def predict_xstart_from_eps (gd : GaussianDiffusion) (x_t : Tensor) (t : ℕ → ℕ)
    (eps : Tensor) : Tensor :=
  fun b d n =>
    gd.sqrt_recip_alphas_cumprod (t b) * x_t b d n
      - gd.sqrt_recipm1_alphas_cumprod (t b) * eps b d n

/-- The `model_variance` table chosen in `p_mean_variance`:
`betas` for `fixedlarge`, `posterior_variance` for `fixedsmall`. -/
def pmv_var_table (gd : GaussianDiffusion) : ℕ → ℝ :=
  if gd.model_var_type = "fixedlarge" then gd.beta else gd.posterior_variance

/-- The `model_log_variance` table chosen in `p_mean_variance`.  For
`fixedlarge` it is `torch.log(torch.cat([posterior_variance[1:2], betas[1:]]))`:
index 0 of the concatenation holds `posterior_variance[1]` and index `j ≥ 1`
holds `betas[j]`.  For `fixedsmall` it is `posterior_log_variance_clipped`. -/
def pmv_logvar_table (gd : GaussianDiffusion) : ℕ → ℝ :=
  if gd.model_var_type = "fixedlarge" then
    fun j => Real.log (if j = 0 then gd.posterior_variance 1 else gd.beta j)
  else gd.posterior_log_variance_clipped

/-- The clean-sample reconstruction inside `p_mean_variance` (`eps` branch):
`x_recon = _predict_xstart_from_eps(data, t, model_output)`, clamped to
`[-0.5, 0.5]` when `clip_denoised`. -/
def x_recon_of (gd : GaussianDiffusion) (denoise_fn : Tensor → (ℕ → ℕ) → Tensor)
    (data : Tensor) (t : ℕ → ℕ) (clip_denoised : Bool) : Tensor :=
  let xr := gd.predict_xstart_from_eps data t (denoise_fn data t)
  if clip_denoised then fun b d n => max (-(1 / 2)) (min (1 / 2) (xr b d n)) else xr

/-- The `model_mean` computed in `p_mean_variance`:
`q_posterior_mean_variance(x_start=x_recon, x_t=data, t=t)` first component. -/
def pmv_mean (gd : GaussianDiffusion) (denoise_fn : Tensor → (ℕ → ℕ) → Tensor)
    (data : Tensor) (t : ℕ → ℕ) (clip_denoised : Bool) : Tensor :=
  (gd.q_posterior_mean_variance (gd.x_recon_of denoise_fn data t clip_denoised) data t).1

/-- `p_mean_variance(denoise_fn, data, t, clip_denoised, return_pred_xstart=True)`:
returns `(model_mean, model_variance, model_log_variance, pred_xstart)`, raising
`NotImplementedError` (here `none`) when `model_var_type` is not in
`['fixedsmall', 'fixedlarge']` or `model_mean_type` is not `'eps'`.  The
variance tables are gathered at `t[b]` and broadcast
(`_extract(v, t, shape) * torch.ones_like(data)`). -/
def p_mean_variance (gd : GaussianDiffusion) (denoise_fn : Tensor → (ℕ → ℕ) → Tensor)
    (data : Tensor) (t : ℕ → ℕ) (clip_denoised : Bool) :
    Option (Tensor × Tensor × Tensor × Tensor) :=
  if gd.model_var_type = "fixedsmall" ∨ gd.model_var_type = "fixedlarge" then
    if gd.model_mean_type = "eps" then
      some (gd.pmv_mean denoise_fn data t clip_denoised,
            fun b _ _ => gd.pmv_var_table (t b) * 1,
            fun b _ _ => gd.pmv_logvar_table (t b) * 1,
            gd.x_recon_of denoise_fn data t clip_denoised)
    else none
  else none

/-- `p_sample(denoise_fn, data, t, noise_fn, clip_denoised, return_pred_xstart=True)`:
`noise = noise_fn(size=data.shape, ...)` is the draw, passed here explicitly;
`nonzero_mask = 1 - (t == 0)` per batch element;
`sample = model_mean + nonzero_mask * exp(0.5 * model_log_variance) * noise`.
Returns `(sample, pred_xstart)`. -/
def p_sample (gd : GaussianDiffusion) (denoise_fn : Tensor → (ℕ → ℕ) → Tensor)
    (data : Tensor) (t : ℕ → ℕ) (noise : Tensor) (clip_denoised : Bool) :
    Option (Tensor × Tensor) :=
  (gd.p_mean_variance denoise_fn data t clip_denoised).map (fun q =>
    (fun b d n =>
        q.1 b d n
          + (1 - (if t b = 0 then (1 : ℝ) else 0))
            * Real.exp (0.5 * q.2.2.1 b d n) * noise b d n,
     q.2.2.2))

end GaussianDiffusion

/-- Embeds `for t in reversed(range(0, n))` threading a state through a
possibly-failing body: `countdown step n s` runs `step` at
`t = n-1, n-2, ..., 0`, propagating a raised exception (`none`). -/
def countdown {σ : Type} (step : ℕ → σ → Option σ) : ℕ → σ → Option σ
  | 0, s => some s
  | n + 1, s => (step n s).bind (countdown step n)

/-- The pure variant of `countdown` for a body that never fails. -/
def countdownPure {σ : Type} (u : ℕ → σ → σ) : ℕ → σ → σ
  | 0, s => s
  | n + 1, s => countdownPure u n (u n s)

namespace GaussianDiffusion

/-- The iteration count of the sampling loops:
`self.num_timesteps if not keep_running else len(self.betas)`. -/
def p_sample_loop_total_steps (gd : GaussianDiffusion) (keep_running : Bool) : ℕ :=
  if keep_running then gd.betas.length else gd.num_timesteps

/-- `p_sample_loop(denoise_fn, shape, device, noise_fn, clip_denoised, keep_running)`:
`img_t = noise_fn(shape)` (passed as `noise_init`), then for
`t in reversed(range(0, total))` the loop broadcasts the scalar `t` to every
batch element and replaces `img_t` by `p_sample(...)`; `noise_at t` is the
noise-source draw made by `p_sample` at step `t`. -/
def p_sample_loop (gd : GaussianDiffusion) (denoise_fn : Tensor → (ℕ → ℕ) → Tensor)
    (noise_init : Tensor) (noise_at : ℕ → Tensor) (clip_denoised : Bool)
    (keep_running : Bool) : Option Tensor :=
  countdown
    (fun t img =>
      (gd.p_sample denoise_fn img (fun _ => t) (noise_at t) clip_denoised).map Prod.fst)
    (gd.p_sample_loop_total_steps keep_running) noise_init

/-- `p_sample_loop_trajectory(denoise_fn, shape, device, freq, ...)`:
identical iteration to `p_sample_loop`, starting from `imgs = [img_t]` and
appending the current sample whenever `t % freq == 0 or t == total_steps - 1`. -/
def p_sample_loop_trajectory (gd : GaussianDiffusion)
    (denoise_fn : Tensor → (ℕ → ℕ) → Tensor) (noise_init : Tensor)
    (noise_at : ℕ → Tensor) (freq : ℕ) (clip_denoised : Bool)
    (keep_running : Bool) : Option (List Tensor) :=
  (countdown
    (fun t (s : Tensor × List Tensor) =>
      (gd.p_sample denoise_fn s.1 (fun _ => t) (noise_at t) clip_denoised).map (fun p =>
        if t % freq = 0 ∨ t = gd.p_sample_loop_total_steps keep_running - 1 then
          (p.1, s.2 ++ [p.1])
        else (p.1, s.2)))
    (gd.p_sample_loop_total_steps keep_running) (noise_init, [noise_init])).map Prod.snd

end GaussianDiffusion

/-- `x.mean(dim=list(range(1, len(x.shape))))` for a [B, D, N] tensor: the
average over the non-batch dimensions, one value per batch element. -/
def dimMean (D N : ℕ) (x : Tensor) (b : ℕ) : ℝ :=
  (∑ d in Finset.range D, ∑ n in Finset.range N, x b d n) / ((D : ℝ) * (N : ℝ))

namespace GaussianDiffusion

/-- `_vb_terms_bpd(denoise_fn, data_start, data_t, t, clip_denoised,
return_pred_xstart=True)`: the per-batch-element KL
`normal_kl(true_mean, true_log_variance_clipped, model_mean, model_log_variance)
  .mean(dim=1..) / np.log(2.)` paired with `pred_xstart`. -/
def vb_terms_bpd (gd : GaussianDiffusion) (denoise_fn : Tensor → (ℕ → ℕ) → Tensor)
    (data_start data_t : Tensor) (t : ℕ → ℕ) (clip_denoised : Bool) (D N : ℕ) :
    Option ((ℕ → ℝ) × Tensor) :=
  (gd.p_mean_variance denoise_fn data_t t clip_denoised).map (fun q =>
    (fun b =>
      dimMean D N
        (fun b' d n =>
          normal_kl ((gd.q_posterior_mean_variance data_start data_t t).1 b' d n)
            ((gd.q_posterior_mean_variance data_start data_t t).2.2 b' d n)
            (q.1 b' d n) (q.2.2.1 b' d n)) b / Real.log 2,
     q.2.2.2))

/-- The value `vb_terms_bpd` yields for the KL component whenever the
configuration is supported (its `some` branch, written out). -/
def vb_kl (gd : GaussianDiffusion) (denoise_fn : Tensor → (ℕ → ℕ) → Tensor)
    (data_start data_t : Tensor) (t : ℕ → ℕ) (clip_denoised : Bool) (D N : ℕ)
    (b : ℕ) : ℝ :=
  dimMean D N
    (fun b' d n =>
      normal_kl ((gd.q_posterior_mean_variance data_start data_t t).1 b' d n)
        ((gd.q_posterior_mean_variance data_start data_t t).2.2 b' d n)
        (gd.pmv_mean denoise_fn data_t t clip_denoised b' d n)
        (gd.pmv_logvar_table (t b') * 1)) b / Real.log 2

/-- `p_losses(denoise_fn, data_start, t, noise=None)`: `noise` defaults to a
fresh draw `randn`; `data_t = q_sample(data_start, t, noise)`; for `'mse'` the
loss is `((noise - eps_recon)**2).mean(dim=1..)`, for `'kl'` it is
`_vb_terms_bpd(...)`; any other `loss_type` raises (`none`). -/
def p_losses (gd : GaussianDiffusion) (denoise_fn : Tensor → (ℕ → ℕ) → Tensor)
    (data_start : Tensor) (t : ℕ → ℕ) (noise : Option Tensor) (randn : Tensor)
    (D N : ℕ) : Option (ℕ → ℝ) :=
  let nz := noise.getD randn
  let data_t := gd.q_sample data_start t (some nz) randn
  if gd.loss_type = "mse" then
    some (fun b =>
      dimMean D N (fun b' d n => (nz b' d n - denoise_fn data_t t b' d n) ^ 2) b)
  else if gd.loss_type = "kl" then
    (gd.vb_terms_bpd denoise_fn data_start data_t t false D N).map Prod.fst
  else none

/-- `_prior_bpd(x_start)`: with `t_` filled with `T-1`,
`normal_kl(qt_mean, qt_log_variance, 0., 0.).mean(dim=1..) / np.log(2.)`. -/
def prior_bpd (gd : GaussianDiffusion) (x_start : Tensor) (D N : ℕ) (b : ℕ) : ℝ :=
  dimMean D N
    (fun b' d n =>
      normal_kl ((gd.q_mean_variance x_start (fun _ => gd.num_timesteps - 1)).1 b' d n)
        ((gd.q_mean_variance x_start (fun _ => gd.num_timesteps - 1)).2.2 b' d n)
        0 0) b / Real.log 2

end GaussianDiffusion

/-- The float indicator `mask_bt[b, j] = (t_b[b] == arange(T)[j])` used by
`calc_bpd_loop` (with `t_b` constant equal to `t`). -/
def maskInd (t j : ℕ) : ℝ := if t = j then 1 else 0

/-- One masked-insertion update of a per-(batch, timestep) table:
`tbl * (~mask) + newv[:, None] * mask`. -/
def mask_update (tbl : ℕ → ℕ → ℝ) (t : ℕ) (newv : ℕ → ℝ) : ℕ → ℕ → ℝ :=
  fun b j => tbl b j * (1 - maskInd t j) + newv b * maskInd t j

namespace GaussianDiffusion

/-- One iteration of the `calc_bpd_loop` body at timestep `t`: compute the VLB
term and progressive MSE at `t` (with `data_t = q_sample(x_start, t_b)` drawing
its noise from `noise_at t`) and masked-insert both into the running tables. -/
def bpd_step (gd : GaussianDiffusion) (denoise_fn : Tensor → (ℕ → ℕ) → Tensor)
    (x_start : Tensor) (clip_denoised : Bool) (D N : ℕ) (noise_at : ℕ → Tensor)
    (t : ℕ) (s : (ℕ → ℕ → ℝ) × (ℕ → ℕ → ℝ)) : Option ((ℕ → ℕ → ℝ) × (ℕ → ℕ → ℝ)) :=
  (gd.vb_terms_bpd denoise_fn x_start
      (gd.q_sample x_start (fun _ => t) none (noise_at t)) (fun _ => t)
      clip_denoised D N).map (fun p =>
    (mask_update s.1 t p.1,
     mask_update s.2 t (fun b => dimMean D N (fun b' d n => (p.2 b' d n - x_start b' d n) ^ 2) b)))

/-- The `vals_bt_`/`mse_bt_` tables of `calc_bpd_loop` after the full reversed
loop over `t = T-1, ..., 0`, starting from `torch.zeros([B, T])`. -/
def calc_bpd_tables (gd : GaussianDiffusion) (denoise_fn : Tensor → (ℕ → ℕ) → Tensor)
    (x_start : Tensor) (clip_denoised : Bool) (D N : ℕ) (noise_at : ℕ → Tensor) :
    Option ((ℕ → ℕ → ℝ) × (ℕ → ℕ → ℝ)) :=
  countdown (gd.bpd_step denoise_fn x_start clip_denoised D N noise_at)
    gd.num_timesteps (fun _ _ => 0, fun _ _ => 0)

/-- `calc_bpd_loop(denoise_fn, x_start, clip_denoised)`: after filling the
tables, `total_bpd_b = vals_bt_.sum(dim=1) + prior_bpd_b` and the function
returns `(total_bpd_b.mean(), vals_bt_.mean(), prior_bpd_b.mean(), mse_bt_.mean())`
— batch-mean scalars. -/
def calc_bpd_loop (gd : GaussianDiffusion) (denoise_fn : Tensor → (ℕ → ℕ) → Tensor)
    (x_start : Tensor) (B D N : ℕ) (clip_denoised : Bool) (noise_at : ℕ → Tensor) :
    Option (ℝ × ℝ × ℝ × ℝ) :=
  (gd.calc_bpd_tables denoise_fn x_start clip_denoised D N noise_at).map (fun p =>
    ((∑ b in Finset.range B,
        ((∑ j in Finset.range gd.num_timesteps, p.1 b j) + gd.prior_bpd x_start D N b)) / B,
     (∑ b in Finset.range B, ∑ j in Finset.range gd.num_timesteps, p.1 b j)
        / ((B : ℝ) * (gd.num_timesteps : ℝ)),
     (∑ b in Finset.range B, gd.prior_bpd x_start D N b) / B,
     (∑ b in Finset.range B, ∑ j in Finset.range gd.num_timesteps, p.2 b j)
        / ((B : ℝ) * (gd.num_timesteps : ℝ))))

end GaussianDiffusion

/-- `np.linspace(a, b, num)`: `num` evenly spaced values from `a` to `b`
(`[a]` when `num = 1`, `[]` when `num = 0`). -/
def linspace (a b : ℚ) (num : ℕ) : List ℚ :=
  (List.range num).map (fun i => if num ≤ 1 then a else a + (b - a) * i / (num - 1))

/-- The warm-up schedules of `get_betas`: `betas = b_end * np.ones(time_num)`
then `betas[:warmup_time] = np.linspace(b_start, b_end, warmup_time)` with
`warmup_time = int(time_num * frac)` (truncation of a non-negative value). -/
def warmup_betas (b_start b_end : ℚ) (time_num : ℕ) (frac : ℚ) : List ℚ :=
  let warmup_time : ℕ := (frac * time_num).floor.toNat
  (List.range time_num).map (fun i =>
    if i < warmup_time then (linspace b_start b_end warmup_time).getD i b_end else b_end)

/-- `get_betas(schedule_type, b_start, b_end, time_num)`: dispatches on the
schedule policy string and raises `NotImplementedError` (`none`) otherwise. -/
def get_betas (schedule_type : String) (b_start b_end : ℚ) (time_num : ℕ) :
    Option (List ℚ) :=
  if schedule_type = "linear" then some (linspace b_start b_end time_num)
  else if schedule_type = "warm0.1" then some (warmup_betas b_start b_end time_num (1 / 10))
  else if schedule_type = "warm0.2" then some (warmup_betas b_start b_end time_num (2 / 10))
  else if schedule_type = "warm0.5" then some (warmup_betas b_start b_end time_num (5 / 10))
  else none

/-- `Model.get_loss_iter(data, noises, guide_img)`: `t` is drawn uniformly per
batch element (passed explicitly), and when `noises` is supplied the rows with
`t != 0` are overwritten in place with fresh standard-normal draws
(`noises[t!=0] = torch.randn(...)`, passed here as `fresh`) before calling
`p_losses(..., noise=noises)`.  The pair returned is (the losses, the caller's
noise buffer after the call). -/
def get_loss_iter (gd : PVD.GaussianDiffusion)
    (denoise_fn : Tensor → (ℕ → ℕ) → Tensor) (data : Tensor)
    (noises : Option Tensor) (t : ℕ → ℕ) (fresh randn : Tensor) (D N : ℕ) :
    Option (ℕ → ℝ) × Option Tensor :=
  let noisesUpd := noises.map (fun ns => fun b d n =>
    if t b ≠ 0 then fresh b d n else ns b d n)
  (gd.p_losses denoise_fn data t noisesUpd randn D N, noisesUpd)

/-- The all-zero tensor, used as a concrete noise draw and denoiser output. -/
def zeroT : Tensor := fun _ _ _ => 0

/-- A denoising network that predicts zero noise everywhere. -/
def dfn0 : Tensor → (ℕ → ℕ) → Tensor := fun _ _ => zeroT

/-- Concrete schedule for the fixed-large substitution-row counterexample:
`betas = [1/10, 1/5, 3/10, 2/5]`, `fixedlarge` variance. -/
def gdC1 : GaussianDiffusion := ⟨[1/10, 1/5, 3/10, 2/5], "mse", "eps", "fixedlarge"⟩

/-- Concrete two-step schedule used to evaluate the `keep_running` iteration
count. -/
def gdC2 : GaussianDiffusion := ⟨[1/10, 1/5], "mse", "eps", "fixedsmall"⟩

/-- Concrete one-step schedule (`betas = [1/2]`, `fixedsmall`) for the
bits-per-dimension loop counterexample. -/
def gdC3 : GaussianDiffusion := ⟨[1/2], "mse", "eps", "fixedsmall"⟩

/-- Concrete two-element batch whose elements differ: element 0 is all zeros,
element 1 is all `1/2`. -/
def x0C3 : Tensor := fun b _ _ => if b = 0 then 0 else 1/2

/-- Concrete schedule containing a beta equal to 1, accepted by the
constructor's `(betas > 0).all() and (betas <= 1).all()` check. -/
def gdC5 : GaussianDiffusion := ⟨[1, 1/2], "mse", "eps", "fixedsmall"⟩

/-- Concrete valid schedule with betas strictly inside `(0, 1)`. -/
def gdOk : GaussianDiffusion := ⟨[1/10, 1/5], "mse", "eps", "fixedsmall"⟩

/-- Concrete 100-step schedule for the trajectory-recording scenario. -/
def gdC6 : GaussianDiffusion := ⟨List.replicate 100 (1/100), "mse", "eps", "fixedsmall"⟩

namespace GaussianDiffusion

lemma p_mean_variance_eq (gd : GaussianDiffusion)
    (h1 : gd.model_var_type = "fixedsmall" ∨ gd.model_var_type = "fixedlarge")
    (h2 : gd.model_mean_type = "eps")
    (denoise_fn : Tensor → (ℕ → ℕ) → Tensor) (data : Tensor) (t : ℕ → ℕ)
    (clip_denoised : Bool) :
    gd.p_mean_variance denoise_fn data t clip_denoised =
      some (gd.pmv_mean denoise_fn data t clip_denoised,
            fun b _ _ => gd.pmv_var_table (t b) * 1,
            fun b _ _ => gd.pmv_logvar_table (t b) * 1,
            gd.x_recon_of denoise_fn data t clip_denoised) := by
  unfold p_mean_variance
  rw [if_pos h1, if_pos h2]

lemma p_sample_eq (gd : GaussianDiffusion)
    (h1 : gd.model_var_type = "fixedsmall" ∨ gd.model_var_type = "fixedlarge")
    (h2 : gd.model_mean_type = "eps")
    (denoise_fn : Tensor → (ℕ → ℕ) → Tensor) (data : Tensor) (t : ℕ → ℕ)
    (noise : Tensor) (clip_denoised : Bool) :
    gd.p_sample denoise_fn data t noise clip_denoised =
      some (fun b d n =>
              gd.pmv_mean denoise_fn data t clip_denoised b d n
                + (1 - (if t b = 0 then (1 : ℝ) else 0))
                  * Real.exp (0.5 * (gd.pmv_logvar_table (t b) * 1)) * noise b d n,
            gd.x_recon_of denoise_fn data t clip_denoised) := by
  unfold p_sample
  rw [gd.p_mean_variance_eq h1 h2]
  rfl

lemma vb_terms_bpd_eq (gd : GaussianDiffusion)
    (h1 : gd.model_var_type = "fixedsmall" ∨ gd.model_var_type = "fixedlarge")
    (h2 : gd.model_mean_type = "eps")
    (denoise_fn : Tensor → (ℕ → ℕ) → Tensor) (data_start data_t : Tensor)
    (t : ℕ → ℕ) (clip_denoised : Bool) (D N : ℕ) :
    gd.vb_terms_bpd denoise_fn data_start data_t t clip_denoised D N =
      some (gd.vb_kl denoise_fn data_start data_t t clip_denoised D N,
            gd.x_recon_of denoise_fn data_t t clip_denoised) := by
  unfold vb_terms_bpd
  rw [gd.p_mean_variance_eq h1 h2]
  rfl

end GaussianDiffusion

lemma normal_kl_nonneg (m1 lv1 m2 lv2 : ℝ) : 0 ≤ normal_kl m1 lv1 m2 lv2 := by
  have h1 : lv1 - lv2 + 1 ≤ Real.exp (lv1 - lv2) := by
    have := Real.add_one_le_exp (lv1 - lv2)
    linarith
  have h2 : 0 ≤ (m1 - m2) ^ 2 * Real.exp (-lv2) :=
    mul_nonneg (sq_nonneg _) (Real.exp_pos _).le
  unfold normal_kl
  nlinarith

lemma normal_kl_self (m lv : ℝ) : normal_kl m lv m lv = 0 := by
  simp [normal_kl, sub_self, Real.exp_zero]

lemma countdown_eq_of_step {σ : Type} (step : ℕ → σ → Option σ) (u : ℕ → σ → σ)
    (h : ∀ t s, step t s = some (u t s)) :
    ∀ n s, countdown step n s = some (countdownPure u n s) := by
  intro n
  induction n with
  | zero => intro s; rfl
  | succ n ih =>
    intro s
    rw [countdown, countdownPure, h n s]
    exact ih (u n s)

lemma countdownPure_snd_append {α : Type}
    (u : ℕ → (α × List α) → (α × List α))
    (h : ∀ t s, ∃ e : List α, u t s = ((u t s).1, s.2 ++ e)) :
    ∀ n s, ∃ r : List α, (countdownPure u n s).2 = s.2 ++ r := by
  intro n
  induction n with
  | zero => intro s; exact ⟨[], by simp [countdownPure]⟩
  | succ n ih =>
    intro s
    obtain ⟨e, he⟩ := h n s
    obtain ⟨r, hr⟩ := ih (u n s)
    refine ⟨e ++ r, ?_⟩
    rw [countdownPure, hr, he]
    simp

lemma countdownPure_snd_length {α : Type}
    (u : ℕ → (α × List α) → (α × List α)) (C : ℕ → Prop) [DecidablePred C]
    (h : ∀ t s, ((u t s).2).length = s.2.length + (if C t then 1 else 0)) :
    ∀ n s, ((countdownPure u n s).2).length =
      s.2.length + (List.range n).countP (fun t => decide (C t)) := by
  intro n
  induction n with
  | zero => intro s; simp [countdownPure]
  | succ n ih =>
    intro s
    rw [countdownPure, ih (u n s), h n s, List.range_succ, List.countP_append]
    by_cases hC : C n
    · simp [hC]
      omega
    · simp [hC]

lemma mask_update_eval (tbl : ℕ → ℕ → ℝ) (t : ℕ) (newv : ℕ → ℝ) (b j : ℕ) :
    mask_update tbl t newv b j = if t = j then newv b else tbl b j := by
  unfold mask_update maskInd
  by_cases h : t = j <;> simp [h]

lemma countdownPure_mask_tables (nv nm : ℕ → ℕ → ℝ) :
    ∀ (n : ℕ) (init : (ℕ → ℕ → ℝ) × (ℕ → ℕ → ℝ)) (b j : ℕ),
      (countdownPure (fun t s => (mask_update s.1 t (nv t), mask_update s.2 t (nm t))) n init).1 b j
          = (if j < n then nv j b else init.1 b j) ∧
      (countdownPure (fun t s => (mask_update s.1 t (nv t), mask_update s.2 t (nm t))) n init).2 b j
          = (if j < n then nm j b else init.2 b j) := by
  intro n
  induction n with
  | zero => intro init b j; simp [countdownPure]
  | succ n ih =>
    intro init b j
    rw [countdownPure]
    rcases ih (mask_update init.1 n (nv n), mask_update init.2 n (nm n)) b j with ⟨h1, h2⟩
    constructor
    · rw [h1]
      rcases lt_trichotomy j n with hj | hj | hj
      · simp [hj, Nat.lt_succ_of_lt hj]
      · subst hj
        simp [mask_update_eval, Nat.lt_irrefl, Nat.lt_succ_self]
      · have hns : ¬ j < n := Nat.not_lt.mpr hj.le
        have hns1 : ¬ j < n + 1 := Nat.not_lt.mpr hj
        have hne : ¬ n = j := fun hh => Nat.lt_irrefl n (hh ▸ hj)
        simp [hns, hns1, mask_update_eval, hne]
    · rw [h2]
      rcases lt_trichotomy j n with hj | hj | hj
      · simp [hj, Nat.lt_succ_of_lt hj]
      · subst hj
        simp [mask_update_eval, Nat.lt_irrefl, Nat.lt_succ_self]
      · have hns : ¬ j < n := Nat.not_lt.mpr hj.le
        have hns1 : ¬ j < n + 1 := Nat.not_lt.mpr hj
        have hne : ¬ n = j := fun hh => Nat.lt_irrefl n (hh ▸ hj)
        simp [hns, hns1, mask_update_eval, hne]

namespace GaussianDiffusion

/-- The `calc_bpd_loop` body always succeeds under a supported configuration,
filling row `t` of each table with the VLB term and progressive MSE at `t`. -/
lemma bpd_step_eq (gd : GaussianDiffusion)
    (h1 : gd.model_var_type = "fixedsmall" ∨ gd.model_var_type = "fixedlarge")
    (h2 : gd.model_mean_type = "eps")
    (denoise_fn : Tensor → (ℕ → ℕ) → Tensor) (x_start : Tensor)
    (clip_denoised : Bool) (D N : ℕ) (noise_at : ℕ → Tensor)
    (t : ℕ) (s : (ℕ → ℕ → ℝ) × (ℕ → ℕ → ℝ)) :
    gd.bpd_step denoise_fn x_start clip_denoised D N noise_at t s =
      some (mask_update s.1 t
              (gd.vb_kl denoise_fn x_start
                (gd.q_sample x_start (fun _ => t) none (noise_at t)) (fun _ => t)
                clip_denoised D N),
            mask_update s.2 t
              (fun b => dimMean D N
                (fun b' d n =>
                  (gd.x_recon_of denoise_fn
                      (gd.q_sample x_start (fun _ => t) none (noise_at t)) (fun _ => t)
                      clip_denoised b' d n - x_start b' d n) ^ 2) b)) := by
  unfold bpd_step
  rw [gd.vb_terms_bpd_eq h1 h2]
  rfl

/-- Under a supported configuration `calc_bpd_loop` succeeds; its tables hold
the per-(batch, timestep) VLB terms, each batch element's internal total is the
sum of its per-timestep terms plus its prior term, and the function returns the
batch means of those per-element quantities. -/
lemma calc_bpd_loop_spec (gd : GaussianDiffusion)
    (h1 : gd.model_var_type = "fixedsmall" ∨ gd.model_var_type = "fixedlarge")
    (h2 : gd.model_mean_type = "eps")
    (denoise_fn : Tensor → (ℕ → ℕ) → Tensor) (x_start : Tensor) (B D N : ℕ)
    (clip_denoised : Bool) (noise_at : ℕ → Tensor) :
    ∃ vals mse : ℕ → ℕ → ℝ,
      gd.calc_bpd_tables denoise_fn x_start clip_denoised D N noise_at = some (vals, mse) ∧
      (∀ b j, j < gd.num_timesteps → vals b j =
        gd.vb_kl denoise_fn x_start (gd.q_sample x_start (fun _ => j) none (noise_at j))
          (fun _ => j) clip_denoised D N b) ∧
      gd.calc_bpd_loop denoise_fn x_start B D N clip_denoised noise_at =
        some ((∑ b in Finset.range B,
                 ((∑ j in Finset.range gd.num_timesteps, vals b j)
                   + gd.prior_bpd x_start D N b)) / B,
              (∑ b in Finset.range B, ∑ j in Finset.range gd.num_timesteps, vals b j)
                 / ((B : ℝ) * (gd.num_timesteps : ℝ)),
              (∑ b in Finset.range B, gd.prior_bpd x_start D N b) / B,
              (∑ b in Finset.range B, ∑ j in Finset.range gd.num_timesteps, mse b j)
                 / ((B : ℝ) * (gd.num_timesteps : ℝ))) := by
  set nv : ℕ → ℕ → ℝ := fun t b =>
    gd.vb_kl denoise_fn x_start (gd.q_sample x_start (fun _ => t) none (noise_at t))
      (fun _ => t) clip_denoised D N b with hnv
  set nm : ℕ → ℕ → ℝ := fun t b =>
    dimMean D N
      (fun b' d n =>
        (gd.x_recon_of denoise_fn
            (gd.q_sample x_start (fun _ => t) none (noise_at t)) (fun _ => t)
            clip_denoised b' d n - x_start b' d n) ^ 2) b with hnm
  have hstep : ∀ t s, gd.bpd_step denoise_fn x_start clip_denoised D N noise_at t s =
      some (mask_update s.1 t (nv t), mask_update s.2 t (nm t)) := by
    intro t s
    exact gd.bpd_step_eq h1 h2 denoise_fn x_start clip_denoised D N noise_at t s
  have htab : gd.calc_bpd_tables denoise_fn x_start clip_denoised D N noise_at =
      some (countdownPure (fun t s => (mask_update s.1 t (nv t), mask_update s.2 t (nm t)))
              gd.num_timesteps (fun _ _ => 0, fun _ _ => 0)) := by
    unfold calc_bpd_tables
    exact countdown_eq_of_step _ _ hstep gd.num_timesteps (fun _ _ => 0, fun _ _ => 0)
  refine ⟨_, _, htab, ?_, ?_⟩
  · intro b j hj
    have := (countdownPure_mask_tables nv nm gd.num_timesteps
      (fun _ _ => 0, fun _ _ => 0) b j).1
    rw [this, if_pos hj]
  · unfold calc_bpd_loop
    rw [htab]
    rfl

end GaussianDiffusion

/-- C7: for every clean sample, timestep tensor and explicitly supplied noise,
`q_sample` returns exactly
`sqrt(alpha_cumprod[t[b]]) * x0 + sqrt(1 - alpha_cumprod[t[b]]) * noise`
(coefficients gathered per batch element, broadcast over the other
dimensions); the result is independent of the fresh standard-normal draw, so
repeated calls with the same supplied noise agree; the fresh draw is consumed
only when no noise is supplied.  (The embedding is purely functional, so `x0`
is never mutated.) -/
theorem claim_C7_q_sample_formula (gd : GaussianDiffusion) (x0 : Tensor)
    (t : ℕ → ℕ) (n randn randn2 : Tensor) (b d m : ℕ) :
    gd.q_sample x0 t (some n) randn b d m
        = Real.sqrt (gd.alphas_cumprod (t b)) * x0 b d m
          + Real.sqrt (1 - gd.alphas_cumprod (t b)) * n b d m
      ∧ gd.q_sample x0 t (some n) randn = gd.q_sample x0 t (some n) randn2
      ∧ gd.q_sample x0 t none randn b d m
        = Real.sqrt (gd.alphas_cumprod (t b)) * x0 b d m
          + Real.sqrt (1 - gd.alphas_cumprod (t b)) * randn b d m :=
  ⟨rfl, rfl, rfl⟩

/-- C2: evaluation of the sampling loop's iteration count.  Because the line
extending the beta schedule to twice its length is commented out in the
constructor, `len(self.betas) = self.num_timesteps`, so `keep_running = True`
still iterates only `num_timesteps` times: on a 2-step schedule the loop runs
2 iterations, not the 2 * T = 4 that the docstring ("run 2 x num_timesteps")
and the claim describe. -/
theorem claim_C2_iteration_count :
    (∀ (gd : GaussianDiffusion) (keep_running : Bool),
        gd.p_sample_loop_total_steps keep_running = gd.num_timesteps)
      ∧ gdC2.p_sample_loop_total_steps true = 2
      ∧ gdC2.p_sample_loop_total_steps true ≠ 2 * gdC2.num_timesteps := by
  refine ⟨fun gd keep_running => ?_, rfl, by decide⟩
  cases keep_running <;> rfl

/-- C9: every unsupported configuration string raises
(`NotImplementedError`, embedded as `none`) instead of falling back: unknown
schedule policies in `get_betas`, unknown variance modes and mean
parameterizations in `p_mean_variance`, and unknown objectives in `p_losses`. -/
theorem claim_C9_unsupported_config_raises :
    (∀ s : String, s ∉ (["linear", "warm0.1", "warm0.2", "warm0.5"] : List String) →
        ∀ (b_start b_end : ℚ) (time_num : ℕ),
          get_betas s b_start b_end time_num = none)
      ∧ (∀ gd : GaussianDiffusion,
          gd.model_var_type ∉ (["fixedsmall", "fixedlarge"] : List String) →
          ∀ (denoise_fn : Tensor → (ℕ → ℕ) → Tensor) (data : Tensor) (t : ℕ → ℕ)
            (clip_denoised : Bool),
            gd.p_mean_variance denoise_fn data t clip_denoised = none)
      ∧ (∀ gd : GaussianDiffusion, gd.model_mean_type ≠ "eps" →
          ∀ (denoise_fn : Tensor → (ℕ → ℕ) → Tensor) (data : Tensor) (t : ℕ → ℕ)
            (clip_denoised : Bool),
            gd.p_mean_variance denoise_fn data t clip_denoised = none)
      ∧ (∀ gd : GaussianDiffusion, gd.loss_type ∉ (["mse", "kl"] : List String) →
          ∀ (denoise_fn : Tensor → (ℕ → ℕ) → Tensor) (data_start : Tensor)
            (t : ℕ → ℕ) (noise : Option Tensor) (randn : Tensor) (D N : ℕ),
            gd.p_losses denoise_fn data_start t noise randn D N = none) := by
  refine ⟨?_, ?_, ?_, ?_⟩
  · intro s hs b_start b_end time_num
    simp only [List.mem_cons, List.mem_singleton, not_or] at hs
    obtain ⟨h1, h2, h3, h4, -⟩ := hs
    unfold get_betas
    rw [if_neg h1, if_neg h2, if_neg h3, if_neg h4]
  · intro gd hv denoise_fn data t clip_denoised
    simp only [List.mem_cons, List.mem_singleton, not_or] at hv
    unfold GaussianDiffusion.p_mean_variance
    rw [if_neg (by simp [hv.1, hv.2.1])]
  · intro gd hm denoise_fn data t clip_denoised
    unfold GaussianDiffusion.p_mean_variance
    by_cases hv : gd.model_var_type = "fixedsmall" ∨ gd.model_var_type = "fixedlarge"
    · rw [if_pos hv, if_neg hm]
    · rw [if_neg hv]
  · intro gd hl denoise_fn data_start t noise randn D N
    simp only [List.mem_cons, List.mem_singleton, not_or] at hl
    unfold GaussianDiffusion.p_losses
    rw [if_neg hl.1, if_neg hl.2.1]

/-- C4: under a supported configuration, the reverse-step sample for a batch
element with `t = 0` is exactly the computed model posterior mean (the noise
contribution is masked to zero), for any noise draw; elements with `t > 0`
receive `mean + exp(0.5 * log_variance) * noise`.  The returned sample is a
[B, D, N] tensor like `xt` by construction. -/
theorem claim_C4_p_sample_mask (gd : GaussianDiffusion)
    (h1 : gd.model_var_type = "fixedsmall" ∨ gd.model_var_type = "fixedlarge")
    (h2 : gd.model_mean_type = "eps")
    (denoise_fn : Tensor → (ℕ → ℕ) → Tensor) (data : Tensor) (t : ℕ → ℕ)
    (noise : Tensor) (clip_denoised : Bool) :
    ∃ q, gd.p_mean_variance denoise_fn data t clip_denoised = some q ∧
      ∃ s, gd.p_sample denoise_fn data t noise clip_denoised = some s ∧
        (∀ b d n, t b = 0 → s.1 b d n = q.1 b d n) ∧
        (∀ b d n, t b ≠ 0 →
          s.1 b d n = q.1 b d n + Real.exp (0.5 * q.2.2.1 b d n) * noise b d n) := by
  refine ⟨_, gd.p_mean_variance_eq h1 h2 denoise_fn data t clip_denoised,
    _, gd.p_sample_eq h1 h2 denoise_fn data t noise clip_denoised, ?_, ?_⟩
  · intro b d n h0
    simp [h0]
  · intro b d n h0
    simp [h0]

/-- C4 witness: the mask theorem instantiated at a concrete one-step
fixed-small configuration with the timestep tensor `t[b] = b`. -/
theorem claim_C4_witness :
    ((gdOk.model_var_type = "fixedsmall" ∨ gdOk.model_var_type = "fixedlarge")
        ∧ gdOk.model_mean_type = "eps")
    ∧ (∃ q, gdOk.p_mean_variance dfn0 zeroT (fun b => b) false = some q ∧
        ∃ s, gdOk.p_sample dfn0 zeroT (fun b => b) zeroT false = some s ∧
          (∀ b d n, (fun b' => b') b = 0 → s.1 b d n = q.1 b d n) ∧
          (∀ b d n, (fun b' => b') b ≠ 0 →
            s.1 b d n = q.1 b d n + Real.exp (0.5 * q.2.2.1 b d n) * zeroT b d n)) :=
  ⟨⟨Or.inl rfl, rfl⟩,
   claim_C4_p_sample_mask gdOk (Or.inl rfl) rfl dfn0 zeroT (fun b => b) zeroT false⟩

/-- C1 (amended): in fixed-large mode the model log-variance table substitutes
row index 0 — not row 1 — of `log(beta[t])` with `log(posterior_variance[1])`:
the returned log-variance is `log(beta[t])` for every element with `t ≥ 1`
(in particular `log(beta[1])` at `t = 1`) and `log(posterior_variance[1])`
exactly where `t = 0`. -/
theorem claim_C1_amended_rowzero (gd : GaussianDiffusion)
    (h1 : gd.model_var_type = "fixedlarge") (h2 : gd.model_mean_type = "eps")
    (denoise_fn : Tensor → (ℕ → ℕ) → Tensor) (data : Tensor) (t : ℕ → ℕ)
    (clip_denoised : Bool) :
    ∃ q, gd.p_mean_variance denoise_fn data t clip_denoised = some q ∧
      (∀ b d n, q.2.2.1 b d n =
        Real.log (if t b = 0 then gd.posterior_variance 1 else gd.beta (t b))) ∧
      (∀ b d n, t b = 0 → q.2.2.1 b d n = Real.log (gd.posterior_variance 1)) ∧
      (∀ b d n, t b = 1 → q.2.2.1 b d n = Real.log (gd.beta 1)) := by
  refine ⟨_, gd.p_mean_variance_eq (Or.inr h1) h2 denoise_fn data t clip_denoised,
    ?_, ?_, ?_⟩
  · intro b d n
    simp [GaussianDiffusion.pmv_logvar_table, h1]
  · intro b d n h0
    simp [GaussianDiffusion.pmv_logvar_table, h1, h0]
  · intro b d n h0
    simp [GaussianDiffusion.pmv_logvar_table, h1, h0]

/-- C1 witness: the amended row-0 substitution rule instantiated at the
concrete 4-step fixed-large schedule `betas = [1/10, 1/5, 3/10, 2/5]`. -/
theorem claim_C1_witness :
    (gdC1.model_var_type = "fixedlarge" ∧ gdC1.model_mean_type = "eps")
    ∧ (∃ q, gdC1.p_mean_variance dfn0 zeroT (fun _ => 0) false = some q ∧
        (∀ b d n, q.2.2.1 b d n =
          Real.log (if (fun _ : ℕ => 0) b = 0 then gdC1.posterior_variance 1
            else gdC1.beta ((fun _ : ℕ => 0) b))) ∧
        (∀ b d n, (fun _ : ℕ => 0) b = 0 →
          q.2.2.1 b d n = Real.log (gdC1.posterior_variance 1)) ∧
        (∀ b d n, (fun _ : ℕ => 0) b = 1 →
          q.2.2.1 b d n = Real.log (gdC1.beta 1))) :=
  ⟨⟨rfl, rfl⟩, claim_C1_amended_rowzero gdC1 rfl rfl dfn0 zeroT (fun _ => 0) false⟩

/-- C1 counterexample: on `betas = [1/10, 1/5, 3/10, 2/5]` in fixed-large mode,
for a batch element with `t = 1` the reverse step's model log-variance is
`log(beta[1]) = log(1/5)`, which differs from
`log(posterior_variance[1]) = log(1/14)` — so the claim's row-1 substitution is
false. -/
theorem claim_C1_counterexample :
    ∃ q, gdC1.p_mean_variance dfn0 zeroT (fun _ => 1) false = some q ∧
      q.2.2.1 0 0 0 ≠ Real.log (gdC1.posterior_variance 1) := by
  refine ⟨_, gdC1.p_mean_variance_eq (Or.inr rfl) rfl dfn0 zeroT (fun _ => 1) false, ?_⟩
  have hb : gdC1.beta 1 = 1/5 := by
    norm_num [gdC1, GaussianDiffusion.beta, List.getD_cons_succ, List.getD_cons_zero]
  have htbl : gdC1.pmv_logvar_table 1 * 1 = Real.log ((1 : ℝ)/5) := by
    unfold GaussianDiffusion.pmv_logvar_table
    rw [if_pos (show gdC1.model_var_type = "fixedlarge" from rfl)]
    rw [if_neg one_ne_zero, hb, mul_one]
  have hpv : gdC1.posterior_variance 1 = 1/14 := by
    unfold GaussianDiffusion.posterior_variance GaussianDiffusion.alphas_cumprod_prev
      GaussianDiffusion.alphas_cumprod
    norm_num [Finset.prod_range_succ, Finset.prod_range_zero, gdC1,
      GaussianDiffusion.beta, List.getD_cons_succ, List.getD_cons_zero]
  show gdC1.pmv_logvar_table 1 * 1 ≠ Real.log (gdC1.posterior_variance 1)
  rw [htbl, hpv]
  exact ne_of_gt (Real.log_lt_log (by norm_num) (by norm_num))

/-- C5 (amended): for schedules whose entries all lie strictly inside `(0, 1)`,
`alpha_cumprod` is strictly decreasing and every entry lies in `(0, 1]`;
`alpha_cumprod_prev[0] = 1` holds unconditionally. -/
theorem claim_C5_amended (gd : GaussianDiffusion)
    (h : ∀ i < gd.num_timesteps, 0 < gd.beta i ∧ gd.beta i < 1) :
    (∀ t, t + 1 < gd.num_timesteps →
        gd.alphas_cumprod (t + 1) < gd.alphas_cumprod t)
      ∧ (∀ t < gd.num_timesteps, 0 < gd.alphas_cumprod t ∧ gd.alphas_cumprod t ≤ 1)
      ∧ gd.alphas_cumprod_prev 0 = 1 := by
  have hfac : ∀ i < gd.num_timesteps, 0 < 1 - gd.beta i ∧ 1 - gd.beta i < 1 := by
    intro i hi
    obtain ⟨h0, h1v⟩ := h i hi
    constructor <;> linarith
  have hpos : ∀ t < gd.num_timesteps, 0 < gd.alphas_cumprod t := by
    intro t ht
    unfold GaussianDiffusion.alphas_cumprod
    apply Finset.prod_pos
    intro i hi
    exact (hfac i (lt_of_lt_of_le (Finset.mem_range.mp hi) (Nat.succ_le_of_lt ht))).1
  have hle : ∀ t < gd.num_timesteps, gd.alphas_cumprod t ≤ 1 := by
    intro t ht
    unfold GaussianDiffusion.alphas_cumprod
    apply Finset.prod_le_one
    · intro i hi
      exact (hfac i (lt_of_lt_of_le (Finset.mem_range.mp hi) (Nat.succ_le_of_lt ht))).1.le
    · intro i hi
      exact (hfac i (lt_of_lt_of_le (Finset.mem_range.mp hi) (Nat.succ_le_of_lt ht))).2.le
  refine ⟨?_, fun t ht => ⟨hpos t ht, hle t ht⟩, rfl⟩
  intro t ht
  have hstep : gd.alphas_cumprod (t + 1)
      = gd.alphas_cumprod t * (1 - gd.beta (t + 1)) := by
    unfold GaussianDiffusion.alphas_cumprod
    rw [Finset.prod_range_succ]
  rw [hstep]
  exact mul_lt_of_lt_one_right (hpos t (Nat.lt_of_succ_lt ht)) (hfac (t + 1) ht).2

/-- C5 witness: the amended invariants instantiated at the concrete valid
schedule `betas = [1/10, 1/5]`. -/
theorem claim_C5_witness :
    (∀ i < gdOk.num_timesteps, 0 < gdOk.beta i ∧ gdOk.beta i < 1)
      ∧ ((∀ t, t + 1 < gdOk.num_timesteps →
            gdOk.alphas_cumprod (t + 1) < gdOk.alphas_cumprod t)
        ∧ (∀ t < gdOk.num_timesteps,
            0 < gdOk.alphas_cumprod t ∧ gdOk.alphas_cumprod t ≤ 1)
        ∧ gdOk.alphas_cumprod_prev 0 = 1) := by
  have h : ∀ i < gdOk.num_timesteps, 0 < gdOk.beta i ∧ gdOk.beta i < 1 := by
    intro i hi
    have h2 : gdOk.num_timesteps = 2 := rfl
    rw [h2] at hi
    interval_cases i <;>
      norm_num [gdOk, GaussianDiffusion.beta, List.getD_cons_zero, List.getD_cons_succ]
  exact ⟨h, claim_C5_amended gdOk h⟩

/-- C5 counterexample: the schedule `betas = [1, 1/2]` has every entry in
`(0, 1]` and passes the constructor's validation, yet
`alpha_cumprod = [0, 0]` is neither strictly decreasing nor inside `(0, 1]`. -/
theorem claim_C5_counterexample :
    gdC5.num_timesteps = 2
      ∧ (0 < gdC5.beta 0 ∧ gdC5.beta 0 ≤ 1)
      ∧ (0 < gdC5.beta 1 ∧ gdC5.beta 1 ≤ 1)
      ∧ ¬ (gdC5.alphas_cumprod 1 < gdC5.alphas_cumprod 0)
      ∧ ¬ (0 < gdC5.alphas_cumprod 0 ∧ gdC5.alphas_cumprod 0 ≤ 1) := by
  have h0 : gdC5.beta 0 = 1 := by
    norm_num [gdC5, GaussianDiffusion.beta, List.getD_cons_zero]
  have h1 : gdC5.beta 1 = 1/2 := by
    norm_num [gdC5, GaussianDiffusion.beta, List.getD_cons_succ, List.getD_cons_zero]
  have hacp0 : gdC5.alphas_cumprod 0 = 0 := by
    simp [GaussianDiffusion.alphas_cumprod, Finset.prod_range_one, h0]
  have hacp1 : gdC5.alphas_cumprod 1 = 0 := by
    simp [GaussianDiffusion.alphas_cumprod, Finset.prod_range_succ,
      Finset.prod_range_one, h0]
  refine ⟨rfl, ?_, ?_, ?_, ?_⟩
  · rw [h0]; norm_num
  · rw [h1]; norm_num
  · rw [hacp0, hacp1]
    exact lt_irrefl 0
  · rw [hacp0]
    rintro ⟨hh, -⟩
    exact lt_irrefl 0 hh

/-- C8: the variational-bound term computes, elementwise, the stated
two-Gaussian KL formula between the true posterior (mean, clipped
log-variance) and the model's approximate posterior (mean, log-variance),
reduces over the non-batch dimensions, divides by `ln 2`, and the resulting
per-batch-element bits value is non-negative. -/
theorem claim_C8_vb_term_kl (gd : GaussianDiffusion)
    (h1 : gd.model_var_type = "fixedsmall" ∨ gd.model_var_type = "fixedlarge")
    (h2 : gd.model_mean_type = "eps")
    (denoise_fn : Tensor → (ℕ → ℕ) → Tensor) (data_start data_t : Tensor)
    (t : ℕ → ℕ) (clip_denoised : Bool) (D N : ℕ) :
    (∀ m1 lv1 m2 lv2 : ℝ, normal_kl m1 lv1 m2 lv2
        = 0.5 * (-1 + lv2 - lv1 + Real.exp (lv1 - lv2)
            + (m1 - m2) ^ 2 * Real.exp (-lv2)))
      ∧ ∃ p, gd.vb_terms_bpd denoise_fn data_start data_t t clip_denoised D N = some p
          ∧ (∀ b, p.1 b = dimMean D N (fun b' d n =>
                normal_kl ((gd.q_posterior_mean_variance data_start data_t t).1 b' d n)
                  ((gd.q_posterior_mean_variance data_start data_t t).2.2 b' d n)
                  (gd.pmv_mean denoise_fn data_t t clip_denoised b' d n)
                  (gd.pmv_logvar_table (t b') * 1)) b / Real.log 2)
          ∧ (∀ b, 0 ≤ p.1 b) := by
  refine ⟨fun m1 lv1 m2 lv2 => rfl,
    _, gd.vb_terms_bpd_eq h1 h2 denoise_fn data_start data_t t clip_denoised D N,
    fun b => rfl, fun b => ?_⟩
  show 0 ≤ gd.vb_kl denoise_fn data_start data_t t clip_denoised D N b
  unfold GaussianDiffusion.vb_kl
  apply div_nonneg _ (Real.log_nonneg one_le_two)
  unfold dimMean
  apply div_nonneg
  · apply Finset.sum_nonneg
    intro d _
    apply Finset.sum_nonneg
    intro n _
    exact normal_kl_nonneg _ _ _ _
  · positivity

/-- C8 witness: the KL-formula and non-negativity statement instantiated at a
concrete fixed-small configuration. -/
theorem claim_C8_witness :
    ((gdOk.model_var_type = "fixedsmall" ∨ gdOk.model_var_type = "fixedlarge")
        ∧ gdOk.model_mean_type = "eps")
    ∧ ((∀ m1 lv1 m2 lv2 : ℝ, normal_kl m1 lv1 m2 lv2
          = 0.5 * (-1 + lv2 - lv1 + Real.exp (lv1 - lv2)
              + (m1 - m2) ^ 2 * Real.exp (-lv2)))
      ∧ ∃ p, gdOk.vb_terms_bpd dfn0 zeroT zeroT (fun _ => 0) false 1 1 = some p
          ∧ (∀ b, p.1 b = dimMean 1 1 (fun b' d n =>
                normal_kl ((gdOk.q_posterior_mean_variance zeroT zeroT (fun _ => 0)).1 b' d n)
                  ((gdOk.q_posterior_mean_variance zeroT zeroT (fun _ => 0)).2.2 b' d n)
                  (gdOk.pmv_mean dfn0 zeroT (fun _ => 0) false b' d n)
                  (gdOk.pmv_logvar_table ((fun _ : ℕ => 0) b') * 1)) b / Real.log 2)
          ∧ (∀ b, 0 ≤ p.1 b)) :=
  ⟨⟨Or.inl rfl, rfl⟩,
   claim_C8_vb_term_kl gdOk (Or.inl rfl) rfl dfn0 zeroT zeroT (fun _ => 0) false 1 1⟩

/-- C10: when a noise buffer is supplied to the training-loss entry point, its
rows at every batch position with a nonzero sampled timestep are overwritten
with fresh standard-normal draws before the loss is computed (the caller's
buffer is mutated), and the supplied noise influences the result only through
the rows whose timestep is 0: two supplied buffers agreeing on those rows give
identical results. -/
theorem claim_C10_noise_overwrite (gd : GaussianDiffusion)
    (denoise_fn : Tensor → (ℕ → ℕ) → Tensor) (data : Tensor) (t : ℕ → ℕ)
    (fresh randn : Tensor) (D N : ℕ) :
    (∀ ns : Tensor,
        (get_loss_iter gd denoise_fn data (some ns) t fresh randn D N).2
          = some (fun b d n => if t b ≠ 0 then fresh b d n else ns b d n))
      ∧ (∀ nsA nsB : Tensor, (∀ b d n, t b = 0 → nsA b d n = nsB b d n) →
          get_loss_iter gd denoise_fn data (some nsA) t fresh randn D N
            = get_loss_iter gd denoise_fn data (some nsB) t fresh randn D N) := by
  refine ⟨fun ns => rfl, fun nsA nsB hAB => ?_⟩
  have hupd : (fun b d n => if t b ≠ 0 then fresh b d n else nsA b d n)
      = (fun b d n => if t b ≠ 0 then fresh b d n else nsB b d n) := by
    funext b d n
    by_cases h0 : t b = 0
    · simp [h0, hAB b d n h0]
    · simp [h0]
  unfold get_loss_iter
  simp only [Option.map_some']
  rw [hupd]

/-- C10 witness: with `t[b] = b`, two supplied buffers that agree on the single
`t = 0` row (batch element 0) produce identical loss results and identical
mutated buffers. -/
theorem claim_C10_witness :
    (∀ b d n, (fun x : ℕ => x) b = 0 →
        zeroT b d n = (fun b' _ _ => if b' = 0 then (0 : ℝ) else 1) b d n)
      ∧ get_loss_iter gdOk dfn0 zeroT (some zeroT) (fun x => x) zeroT zeroT 1 1
          = get_loss_iter gdOk dfn0 zeroT
              (some (fun b' _ _ => if b' = 0 then (0 : ℝ) else 1)) (fun x => x)
              zeroT zeroT 1 1 := by
  have hag : ∀ b d n, (fun x : ℕ => x) b = 0 →
      zeroT b d n = (fun b' _ _ => if b' = 0 then (0 : ℝ) else 1) b d n := by
    intro b d n h0
    have hb : b = 0 := h0
    simp [zeroT, hb]
  exact ⟨hag,
    (claim_C10_noise_overwrite gdOk dfn0 zeroT (fun x => x) zeroT zeroT 1 1).2 _ _ hag⟩

/-- C9 witness: concrete unsupported strings ("cosine" schedule, "learned"
variance mode, "xstart" mean parameterization, "hinge" objective) all raise. -/
theorem claim_C9_witness :
    (("cosine" : String) ∉ (["linear", "warm0.1", "warm0.2", "warm0.5"] : List String)
      ∧ get_betas "cosine" (1/10000) (2/100) 1000 = none)
    ∧ ((GaussianDiffusion.mk [1/10] "mse" "eps" "learned").model_var_type
          ∉ (["fixedsmall", "fixedlarge"] : List String)
      ∧ (GaussianDiffusion.mk [1/10] "mse" "eps" "learned").p_mean_variance
          dfn0 zeroT (fun _ => 0) false = none)
    ∧ ((GaussianDiffusion.mk [1/10] "mse" "xstart" "fixedsmall").model_mean_type ≠ "eps"
      ∧ (GaussianDiffusion.mk [1/10] "mse" "xstart" "fixedsmall").p_mean_variance
          dfn0 zeroT (fun _ => 0) false = none)
    ∧ ((GaussianDiffusion.mk [1/10] "hinge" "eps" "fixedsmall").loss_type
          ∉ (["mse", "kl"] : List String)
      ∧ (GaussianDiffusion.mk [1/10] "hinge" "eps" "fixedsmall").p_losses
          dfn0 zeroT (fun _ => 0) none zeroT 3 5 = none) :=
  ⟨⟨by decide, claim_C9_unsupported_config_raises.1 "cosine" (by decide) _ _ _⟩,
   ⟨by decide, claim_C9_unsupported_config_raises.2.1 _ (by decide) _ _ _ _⟩,
   ⟨by decide, claim_C9_unsupported_config_raises.2.2.1 _ (by decide) _ _ _ _⟩,
   ⟨by decide, claim_C9_unsupported_config_raises.2.2.2 _ (by decide) _ _ _ _ _ _ _⟩⟩

/-- C6: the trajectory-recording loop iterates exactly like the plain loop
(`p_sample_loop_total_steps` steps); the returned sequence starts with the
initial pure-noise sample and has length `1 + #{t < total : t % freq = 0 or
t = total - 1}` — one snapshot appended after a step exactly when
`t % record_every = 0` or `t` is the first iterated value.  For `T = 100` and
`record_every = 25` the count is 5 (steps 99, 75, 50, 25, 0), so 6 snapshots
in all (see the witness). -/
theorem claim_C6_trajectory (gd : GaussianDiffusion)
    (h1 : gd.model_var_type = "fixedsmall" ∨ gd.model_var_type = "fixedlarge")
    (h2 : gd.model_mean_type = "eps")
    (denoise_fn : Tensor → (ℕ → ℕ) → Tensor) (noise_init : Tensor)
    (noise_at : ℕ → Tensor) (freq : ℕ) (clip_denoised : Bool)
    (keep_running : Bool) :
    ∃ l, gd.p_sample_loop_trajectory denoise_fn noise_init noise_at freq
          clip_denoised keep_running = some l
      ∧ l.head? = some noise_init
      ∧ l.length = 1 + (List.range (gd.p_sample_loop_total_steps keep_running)).countP
          (fun t => decide (t % freq = 0
            ∨ t = gd.p_sample_loop_total_steps keep_running - 1)) := by
  set total := gd.p_sample_loop_total_steps keep_running with htotal
  set v : ℕ → Tensor → Tensor := fun t img => fun b d n =>
    gd.pmv_mean denoise_fn img (fun _ => t) clip_denoised b d n
      + (1 - (if t = 0 then (1 : ℝ) else 0))
        * Real.exp (0.5 * (gd.pmv_logvar_table t * 1)) * noise_at t b d n with hv
  set u : ℕ → Tensor × List Tensor → Tensor × List Tensor := fun t s =>
    if t % freq = 0 ∨ t = total - 1 then (v t s.1, s.2 ++ [v t s.1])
    else (v t s.1, s.2) with hu
  have hstep : ∀ (t : ℕ) (s : Tensor × List Tensor),
      (gd.p_sample denoise_fn s.1 (fun _ => t) (noise_at t) clip_denoised).map
        (fun p => if t % freq = 0 ∨ t = total - 1 then (p.1, s.2 ++ [p.1])
          else (p.1, s.2)) = some (u t s) := by
    intro t s
    rw [gd.p_sample_eq h1 h2 denoise_fn s.1 (fun _ => t) (noise_at t) clip_denoised]
    rw [Option.map_some']
  have hloop : gd.p_sample_loop_trajectory denoise_fn noise_init noise_at freq
      clip_denoised keep_running
      = some ((countdownPure u total (noise_init, [noise_init])).2) := by
    unfold GaussianDiffusion.p_sample_loop_trajectory
    rw [← htotal]
    rw [countdown_eq_of_step _ u hstep total (noise_init, [noise_init])]
    rfl
  have happend : ∀ (t : ℕ) (s : Tensor × List Tensor),
      ∃ e : List Tensor, u t s = ((u t s).1, s.2 ++ e) := by
    intro t s
    by_cases hc : t % freq = 0 ∨ t = total - 1
    · exact ⟨[v t s.1], by rw [hu]; simp [hc]⟩
    · exact ⟨[], by rw [hu]; simp [hc]⟩
  obtain ⟨r, hr⟩ := countdownPure_snd_append u happend total (noise_init, [noise_init])
  have hlen : ∀ (t : ℕ) (s : Tensor × List Tensor),
      ((u t s).2).length = s.2.length
        + (if t % freq = 0 ∨ t = total - 1 then 1 else 0) := by
    intro t s
    by_cases hc : t % freq = 0 ∨ t = total - 1
    · rw [hu]; simp [hc]
    · rw [hu]; simp [hc]
  have hlength := countdownPure_snd_length u
    (fun t => t % freq = 0 ∨ t = total - 1) hlen total (noise_init, [noise_init])
  refine ⟨_, hloop, ?_, ?_⟩
  · rw [hr]
    rfl
  · rw [hlength]
    rfl

/-- C6 witness: on the concrete 100-step schedule with `record_every = 25` the
recorded trajectory is `some` and holds exactly 6 snapshots, the first being
the initial pure-noise sample. -/
theorem claim_C6_witness :
    ((gdC6.model_var_type = "fixedsmall" ∨ gdC6.model_var_type = "fixedlarge")
        ∧ gdC6.model_mean_type = "eps")
    ∧ (∃ l, gdC6.p_sample_loop_trajectory dfn0 zeroT (fun _ => zeroT) 25 false false
          = some l
        ∧ l.head? = some zeroT
        ∧ l.length = 6) := by
  obtain ⟨l, hl, hh, hlen⟩ :=
    claim_C6_trajectory gdC6 (Or.inl rfl) rfl dfn0 zeroT (fun _ => zeroT) 25 false false
  refine ⟨⟨Or.inl rfl, rfl⟩, l, hl, hh, ?_⟩
  rw [hlen]
  decide

/-- C3 (amended): under a supported configuration, the internal per-timestep
table of `calc_bpd_loop` holds, for every batch element and every timestep,
exactly that element's variational-bound term at that timestep (each row being
written once by the masked insertion), and the internal per-element total is
the sum of those terms plus the element's prior term; the value the function
actually returns is the batch MEAN of those per-element totals (a scalar), not
a per-example tensor. -/
theorem claim_C3_amended_batch_mean (gd : GaussianDiffusion)
    (h1 : gd.model_var_type = "fixedsmall" ∨ gd.model_var_type = "fixedlarge")
    (h2 : gd.model_mean_type = "eps")
    (denoise_fn : Tensor → (ℕ → ℕ) → Tensor) (x_start : Tensor) (B D N : ℕ)
    (clip_denoised : Bool) (noise_at : ℕ → Tensor) :
    ∃ vals mse : ℕ → ℕ → ℝ,
      gd.calc_bpd_tables denoise_fn x_start clip_denoised D N noise_at
          = some (vals, mse)
        ∧ (∀ b j, j < gd.num_timesteps → vals b j =
            gd.vb_kl denoise_fn x_start
              (gd.q_sample x_start (fun _ => j) none (noise_at j)) (fun _ => j)
              clip_denoised D N b)
        ∧ ∃ r, gd.calc_bpd_loop denoise_fn x_start B D N clip_denoised noise_at
              = some r
            ∧ r.1 = (∑ b in Finset.range B,
                ((∑ j in Finset.range gd.num_timesteps, vals b j)
                  + gd.prior_bpd x_start D N b)) / B := by
  obtain ⟨vals, mse, htab, hvals, hloop⟩ :=
    gd.calc_bpd_loop_spec h1 h2 denoise_fn x_start B D N clip_denoised noise_at
  exact ⟨vals, mse, htab, hvals, _, hloop, rfl⟩

/-- C3 witness: the amended decomposition instantiated at a concrete one-step
fixed-small configuration with a single-element batch. -/
theorem claim_C3_witness :
    ((gdOk.model_var_type = "fixedsmall" ∨ gdOk.model_var_type = "fixedlarge")
        ∧ gdOk.model_mean_type = "eps")
    ∧ (∃ vals mse : ℕ → ℕ → ℝ,
        gdOk.calc_bpd_tables dfn0 zeroT false 1 1 (fun _ => zeroT)
            = some (vals, mse)
          ∧ (∀ b j, j < gdOk.num_timesteps → vals b j =
              gdOk.vb_kl dfn0 zeroT
                (gdOk.q_sample zeroT (fun _ => j) none zeroT) (fun _ => j)
                false 1 1 b)
          ∧ ∃ r, gdOk.calc_bpd_loop dfn0 zeroT 1 1 1 false (fun _ => zeroT)
                = some r
              ∧ r.1 = (∑ b in Finset.range 1,
                  ((∑ j in Finset.range gdOk.num_timesteps, vals b j)
                    + gdOk.prior_bpd zeroT 1 1 b)) / ((1 : ℕ) : ℝ)) :=
  ⟨⟨Or.inl rfl, rfl⟩,
   claim_C3_amended_batch_mean gdOk (Or.inl rfl) rfl dfn0 zeroT 1 1 1 false
     (fun _ => zeroT)⟩

lemma gdC3_beta0 : gdC3.beta 0 = 1/2 := by
  norm_num [gdC3, GaussianDiffusion.beta, List.getD_cons_zero]

lemma gdC3_acp0 : gdC3.alphas_cumprod 0 = 1/2 := by
  rw [GaussianDiffusion.alphas_cumprod, Finset.prod_range_one, gdC3_beta0]
  norm_num

lemma gdC3_pmc1 : gdC3.posterior_mean_coef1 0 = 1 := by
  rw [GaussianDiffusion.posterior_mean_coef1, gdC3_beta0, gdC3_acp0]
  rw [show gdC3.alphas_cumprod_prev 0 = 1 from rfl]
  rw [Real.sqrt_one]
  norm_num

lemma gdC3_pmc2 : gdC3.posterior_mean_coef2 0 = 0 := by
  rw [GaussianDiffusion.posterior_mean_coef2, gdC3_acp0]
  rw [show gdC3.alphas_cumprod_prev 0 = 1 from rfl]
  norm_num

lemma gdC3_dataT : ∀ b d n,
    gdC3.q_sample x0C3 (fun _ => 0) none zeroT b d n
      = Real.sqrt (1/2) * x0C3 b d n := by
  intro b d n
  rw [GaussianDiffusion.q_sample]
  simp only [Option.getD_none, zeroT, mul_zero, add_zero]
  rw [GaussianDiffusion.sqrt_alphas_cumprod, gdC3_acp0]

lemma sqrt_recip_half_mul : Real.sqrt ((1 : ℝ) / (1/2)) * Real.sqrt (1/2) = 1 := by
  rw [← Real.sqrt_mul (by norm_num : (0 : ℝ) ≤ 1 / (1/2))]
  norm_num [Real.sqrt_one]

lemma gdC3_xrecon : ∀ b d n,
    gdC3.x_recon_of dfn0 (gdC3.q_sample x0C3 (fun _ => 0) none zeroT)
      (fun _ => 0) false b d n = x0C3 b d n := by
  intro b d n
  rw [GaussianDiffusion.x_recon_of]
  simp only [Bool.false_eq_true, if_false, GaussianDiffusion.predict_xstart_from_eps,
    dfn0, zeroT, mul_zero, sub_zero]
  rw [gdC3_dataT b d n]
  rw [GaussianDiffusion.sqrt_recip_alphas_cumprod, gdC3_acp0]
  rw [← mul_assoc, sqrt_recip_half_mul, one_mul]

lemma gdC3_pmv_mean : ∀ b d n,
    gdC3.pmv_mean dfn0 (gdC3.q_sample x0C3 (fun _ => 0) none zeroT)
      (fun _ => 0) false b d n = x0C3 b d n := by
  intro b d n
  rw [GaussianDiffusion.pmv_mean, GaussianDiffusion.q_posterior_mean_variance]
  simp only []
  rw [gdC3_pmc1, gdC3_pmc2, gdC3_xrecon b d n, one_mul, zero_mul, add_zero]

lemma gdC3_true_mean : ∀ b d n,
    (gdC3.q_posterior_mean_variance x0C3
        (gdC3.q_sample x0C3 (fun _ => 0) none zeroT) (fun _ => 0)).1 b d n
      = x0C3 b d n := by
  intro b d n
  rw [GaussianDiffusion.q_posterior_mean_variance]
  simp only []
  rw [gdC3_pmc1, gdC3_pmc2, one_mul, zero_mul, add_zero]

lemma gdC3_logvar_table :
    gdC3.pmv_logvar_table 0 * 1 = gdC3.posterior_log_variance_clipped 0 := by
  rw [GaussianDiffusion.pmv_logvar_table]
  rw [if_neg (by decide : ¬ gdC3.model_var_type = "fixedlarge")]
  rw [mul_one]

lemma gdC3_vb0 : ∀ b,
    gdC3.vb_kl dfn0 x0C3 (gdC3.q_sample x0C3 (fun _ => 0) none zeroT)
      (fun _ => 0) false 1 1 b = 0 := by
  intro b
  rw [GaussianDiffusion.vb_kl]
  have hkl : ∀ b' d n,
      normal_kl
        ((gdC3.q_posterior_mean_variance x0C3
            (gdC3.q_sample x0C3 (fun _ => 0) none zeroT) (fun _ => 0)).1 b' d n)
        ((gdC3.q_posterior_mean_variance x0C3
            (gdC3.q_sample x0C3 (fun _ => 0) none zeroT) (fun _ => 0)).2.2 b' d n)
        (gdC3.pmv_mean dfn0 (gdC3.q_sample x0C3 (fun _ => 0) none zeroT)
            (fun _ => 0) false b' d n)
        (gdC3.pmv_logvar_table ((fun _ : ℕ => 0) b') * 1) = 0 := by
    intro b' d n
    rw [gdC3_true_mean b' d n, gdC3_pmv_mean b' d n]
    rw [show gdC3.pmv_logvar_table ((fun _ : ℕ => 0) b') * 1
        = gdC3.posterior_log_variance_clipped 0 from gdC3_logvar_table]
    rw [show (gdC3.q_posterior_mean_variance x0C3
        (gdC3.q_sample x0C3 (fun _ => 0) none zeroT) (fun _ => 0)).2.2 b' d n
        = gdC3.posterior_log_variance_clipped 0 from rfl]
    exact normal_kl_self _ _
  simp only [hkl, dimMean, Finset.sum_const_zero, zero_div]

lemma gdC3_prior : ∀ b, gdC3.prior_bpd x0C3 1 1 b
    = 0.5 * (-1 + Real.log 2 + 1/2 + (1/2) * (x0C3 b 0 0) ^ 2) / Real.log 2 := by
  intro b
  rw [GaussianDiffusion.prior_bpd]
  have hm : ∀ d n, (gdC3.q_mean_variance x0C3
      (fun _ => gdC3.num_timesteps - 1)).1 b d n
      = Real.sqrt (1/2) * x0C3 b d n := by
    intro d n
    rw [GaussianDiffusion.q_mean_variance]
    simp only []
    rw [GaussianDiffusion.sqrt_alphas_cumprod]
    rw [show gdC3.num_timesteps - 1 = 0 from rfl, gdC3_acp0]
  have hlv : ∀ d n, (gdC3.q_mean_variance x0C3
      (fun _ => gdC3.num_timesteps - 1)).2.2 b d n = Real.log ((1 : ℝ)/2) := by
    intro d n
    rw [GaussianDiffusion.q_mean_variance]
    simp only []
    rw [GaussianDiffusion.log_one_minus_alphas_cumprod]
    rw [show gdC3.num_timesteps - 1 = 0 from rfl, gdC3_acp0]
    norm_num
  rw [dimMean, Finset.sum_range_one, Finset.sum_range_one, hm 0 0, hlv 0 0]
  rw [normal_kl]
  simp only [sub_zero, neg_zero, Real.exp_zero]
  rw [Real.exp_log (by norm_num : (0 : ℝ) < 1/2)]
  rw [show Real.log ((1 : ℝ)/2) = -Real.log 2 by rw [one_div, Real.log_inv]]
  rw [mul_pow, Real.sq_sqrt (by norm_num : (0 : ℝ) ≤ 1/2)]
  push_cast
  ring_nf

/-- C3 counterexample: on `betas = [1/2]` (one timestep, fixed-small) with a
two-element batch where element 0 is all zeros and element 1 is all `1/2`, a
zero-predicting denoiser and zero noise draws, the value returned by
`calc_bpd_loop` as the total bound is the batch mean
`(log 2 - 7/16) / (2 log 2)` and differs from batch element 0's own
per-timestep-sum-plus-prior `(log 2 - 1/2) / (2 log 2)`: the returned total is
not a per-example quantity and does not equal every element's decomposition. -/
theorem claim_C3_counterexample :
    ∃ r, gdC3.calc_bpd_loop dfn0 x0C3 2 1 1 false (fun _ => zeroT) = some r
      ∧ r.1 ≠ (∑ j in Finset.range gdC3.num_timesteps,
            gdC3.vb_kl dfn0 x0C3 (gdC3.q_sample x0C3 (fun _ => j) none zeroT)
              (fun _ => j) false 1 1 0)
          + gdC3.prior_bpd x0C3 1 1 0 := by
  obtain ⟨vals, mse, htab, hvals, hloop⟩ :=
    gdC3.calc_bpd_loop_spec (Or.inl rfl) rfl dfn0 x0C3 2 1 1 false (fun _ => zeroT)
  refine ⟨_, hloop, ?_⟩
  have hT : gdC3.num_timesteps = 1 := rfl
  have hv0 : ∀ b, vals b 0 = 0 := by
    intro b
    rw [hvals b 0 (by rw [hT]; norm_num)]
    exact gdC3_vb0 b
  have hx0 : x0C3 0 0 0 = 0 := by simp [x0C3]
  have hx1 : x0C3 1 0 0 = 1/2 := by simp [x0C3]
  have hL : (0 : ℝ) < Real.log 2 := Real.log_pos one_lt_two
  rw [hT]
  simp only [Finset.sum_range_one, Finset.sum_range_succ, Finset.range_one,
    Finset.sum_singleton]
  rw [hv0 0, hv0 1, gdC3_vb0 0, gdC3_prior 0, gdC3_prior 1, hx0, hx1]
  intro heq
  have hLne : Real.log 2 ≠ 0 := ne_of_gt hL
  field_simp at heq
  nlinarith [heq]

end PVD
